import Mathlib

/-!
Verification of the quantitative analysis routine of the HackathonACC
equity dashboard.  The single function with computational substance is
`run_quant_analysis` in `src/analysis.py`; everything below is a shallow
embedding of that function over exact rational arithmetic (ℚ for Python
floats, with `Option` encoding NaN / missing values, and ℝ only where the
source takes irrational powers or square roots).

Modelling conventions:
* a pandas DataFrame of daily closes is a `Frame` (parallel `dates` and
  `close` lists, strictly increasing unique dates per the data model,
  plus the two SMA columns the routine may add);
* `None`-valued Python floats and NaN results are `Option.none`;
* Python float division by zero inside numpy/pandas yields NaN/inf, never
  an exception; a division whose denominator can be zero is therefore
  modelled with an `Option` result (`none` = non-finite);
* Python truthiness of an optional number (`if target_price:`) is
  "present and nonzero";
* the one hard failure path, `iloc[-1]` on an empty series, is modelled
  by `run_quant_analysis` returning `none`.
-/

namespace QuantAnalysis

/-- A price-history dataframe: parallel lists of dates and closing prices,
plus the two moving-average columns that `run_quant_analysis` assigns
(`stock_df['SMA_50'] = ...`, `stock_df['SMA_200'] = ...`, lines 43-44 of
`src/analysis.py`).  Before the call the SMA columns are absent (`none`). -/
structure Frame where
  dates : List ℕ
  close : List ℚ
  sma50 : Option (List (Option ℚ)) := none
  sma200 : Option (List (Option ℚ)) := none
deriving DecidableEq

/-- The slice of the yfinance `info` record that `run_quant_analysis`
reads: `targetMeanPrice`, `freeCashflow`, `debtToEquity`.  Any field may be
absent (`info.get` returns `None`). -/
structure InfoRecord where
  targetMeanPrice : Option ℚ := none
  freeCashflow : Option ℚ := none
  debtToEquity : Option ℚ := none
deriving DecidableEq

/-- The `data` dictionary handed to `run_quant_analysis`:
`stock_history`, `market_history`, `info`. -/
structure InputData where
  stockHistory : Frame
  marketHistory : Frame
  info : InfoRecord
deriving DecidableEq

/-- The rows of a frame as (date, close) pairs. -/
def Frame.rows (f : Frame) : List (ℕ × ℚ) := f.dates.zip f.close

/-- Line 17-20: `pd.DataFrame({'Stock': .., 'Market': ..}).dropna()` —
the inner join of the two series on date.  Dates are unique and strictly
increasing in each frame, so pandas index alignment followed by `dropna`
keeps exactly the dates present in both, in order. -/
def innerJoin (stock market : Frame) : List (ℚ × ℚ) :=
  stock.rows.filterMap fun dp => (market.rows.lookup dp.1).map fun mv => (dp.2, mv)

/-- Line 22: `prices.pct_change().dropna()` — day-over-day fractional
change of both columns; the first row (NaN) is dropped. -/
def pctChange (l : List (ℚ × ℚ)) : List (ℚ × ℚ) :=
  (l.zip l.tail).map fun pq =>
    ((pq.2.1 - pq.1.1) / pq.1.1, (pq.2.2 - pq.1.2) / pq.1.2)

/-- The joined daily return series of lines 17-22, as a function of the
input record. -/
def returnsOf (data : InputData) : List (ℚ × ℚ) :=
  pctChange (innerJoin data.stockHistory data.marketHistory)

/-- Arithmetic mean of a list of rationals. -/
def mean (l : List ℚ) : ℚ := l.sum / (l.length : ℚ)

/-- Pandas `Series.var()` (ddof = 1): `none` (NaN) when fewer than two
observations, otherwise the sample variance. -/
def sampleVar (l : List ℚ) : Option ℚ :=
  if l.length ≤ 1 then none
  else some ((l.map fun x => (x - mean l) ^ 2).sum / ((l.length : ℚ) - 1))

/-- Pandas `DataFrame.cov()` entry for the two columns (ddof = 1):
`none` (NaN) when fewer than two rows, otherwise the sample covariance. -/
def sampleCov (l : List (ℚ × ℚ)) : Option ℚ :=
  if l.length ≤ 1 then none
  else some ((l.map fun p =>
      (p.1 - mean (l.map Prod.fst)) * (p.2 - mean (l.map Prod.snd))).sum /
    ((l.length : ℚ) - 1))

/-- Lines 26-28: `beta = cov.loc['Stock','Market'] / returns['Market'].var()`.
Numpy float division never raises: dividing by a zero variance yields
NaN (the covariance is then also zero) or ±inf, both modelled `none`;
a NaN covariance or variance (fewer than two returns) propagates to `none`. -/
def betaOf (rets : List (ℚ × ℚ)) : Option ℚ :=
  match sampleCov rets, sampleVar (rets.map Prod.snd) with
  | some c, some v => if v = 0 then none else some (c / v)
  | _, _ => none

/-- Line 25 / 33: the guarded beta of lines 25-34 — covariance over
variance when the return series is non-empty, else the `1.0` fallback. -/
def betaRaw (rets : List (ℚ × ℚ)) : Option ℚ :=
  if rets = [] then some 1 else betaOf rets

/-- Line 31: `returns['Stock'].std() * np.sqrt(252)`; NaN (`none`) when
fewer than two returns exist. -/
noncomputable def volatilityOf (stockRets : List ℚ) : Option ℝ :=
  (sampleVar stockRets).map fun v => Real.sqrt (v : ℝ) * Real.sqrt 252

/-- Python `round` ties-to-even on an exact rational. -/
def roundHalfEven (x : ℚ) : ℤ :=
  if x - ⌊x⌋ < 1/2 then ⌊x⌋
  else if (1 : ℚ)/2 < x - ⌊x⌋ then ⌊x⌋ + 1
  else if ⌊x⌋ % 2 = 0 then ⌊x⌋ else ⌊x⌋ + 1

/-- Python `round(x, ndigits)` on an exact rational. -/
def pyRound (ndigits : ℕ) (x : ℚ) : ℚ :=
  (roundHalfEven (x * 10 ^ ndigits) : ℚ) / 10 ^ ndigits

/-- Trailing simple moving average value at the last row: the sum of the
last `w` closes over `w`.  This is `stock_df['Close'].rolling(window=w).mean().iloc[-1]`
whenever at least `w` observations exist. -/
def smaLast (w : ℕ) (xs : List ℚ) : ℚ := ((xs.drop (xs.length - w)).sum) / (w : ℚ)

/-- The full rolling-mean column `Close.rolling(window=w).mean()`:
NaN (`none`) until `w` observations have been seen. -/
def rollingMean (w : ℕ) (xs : List ℚ) : List (Option ℚ) :=
  (List.range xs.length).map fun i =>
    if w ≤ i + 1 then some (((xs.take (i + 1)).drop (i + 1 - w)).sum / (w : ℚ)) else none

/-- Line 52: `sma_200 = stock_df['SMA_200'].iloc[-1] if len(stock_df) > 200 else sma_50`
— the slow average, substituted by the fast one when fewer than 201 rows exist. -/
def sma200Sub (closes : List ℚ) : ℚ :=
  if 200 < closes.length then smaLast 200 closes else smaLast 50 closes

/-- Lines 55-69: the five-way trend comparison on the latest price and the
two moving averages (strict inequalities; every tie falls to NEUTRAL). -/
def trendCompare (price s50 s200 : ℚ) : String × String :=
  if s50 > s200 ∧ price > s50 then ("BULLISH", "Strong Uptrend (Price > Green > Red)")
  else if s50 > s200 ∧ price < s50 then ("WEAKENING", "Caution: Price dropped below Green")
  else if s50 < s200 ∧ price < s50 then ("BEARISH", "Downtrend (Price < Green < Red)")
  else if s50 < s200 ∧ price > s50 then ("RECOVERY", "Watch: Price reclaimed Green line")
  else ("NEUTRAL", "Consolidating")

/-- Lines 48-73: the trend block.  The comparison logic runs only when
`len(stock_df) > 50`; otherwise the degraded
`("NEUTRAL", "Insufficient History")` result is emitted.  `curr` is
`stock_df['Close'].iloc[-1]`. -/
def trendOf (closes : List ℚ) (curr : ℚ) : String × String :=
  if 50 < closes.length then
    trendCompare curr (smaLast 50 closes) (sma200Sub closes)
  else ("NEUTRAL", "Insufficient History")

/-- Lines 76-82: the valuation stage.  `if target_price:` is Python
truthiness — an absent or zero analyst target falls to the
`target := curr, upside := 0` default; otherwise
`upside = (target - curr) / curr`.  Returns (target_price, upside) after
the possible reassignment. -/
def valuationOf (targetMean : Option ℚ) (curr : ℚ) : ℚ × ℚ :=
  match targetMean with
  | some t => if t ≠ 0 then (t, (t - curr) / curr) else (curr, 0)
  | none => (curr, 0)

/-- Lines 84-94: the verdict decision table, first match wins. -/
def verdictOf (trend : String) (upside : ℚ) : String :=
  if trend = "BULLISH" ∧ 0 < upside then "LONG (BUY)"
  else if trend = "BEARISH" then "SHORT (SELL)"
  else if trend = "WEAKENING" then "EXIT / CAUTION"
  else if trend = "RECOVERY" then "WATCH FOR ENTRY"
  else "HOLD"

/-- Lines 98-102: `get_past_value(days)` — the backward multiple
`curr / Close.iloc[-days]`, only when more than `days` rows exist. -/
def getPastValue (closes : List ℚ) (curr : ℚ) (days : ℕ) : Option ℚ :=
  if days < closes.length then some (curr / closes.getD (closes.length - days) 0) else none

/-- Lines 106-114: the four forward multiples computed from the growth
rate `(target - curr) / curr`, with the rate capped at 0.50 for the
five-year horizon only.  The components are the 1-month, 6-month, 1-year
and 5-year projected values of one dollar. -/
noncomputable def futureTuple (rate : ℚ) : ℝ × ℝ × ℝ × ℝ :=
  ((1 + (rate : ℝ)) ^ ((1 : ℝ)/12),
   (1 + (rate : ℝ)) ^ ((1 : ℝ)/2),
   (1 + (rate : ℝ)) ^ (1 : ℝ),
   (1 + ((min rate 0.5 : ℚ) : ℝ)) ^ (5 : ℝ))

/-- Lines 105-116: the forward side of the time machine.  `target_price`
here is the value AFTER the stage-3 reassignment, so `if target_price:`
tests that post-valuation value for truthiness. -/
noncomputable def futMultiples (targetPrice curr : ℚ) : Option (ℝ × ℝ × ℝ × ℝ) :=
  if targetPrice ≠ 0 then some (futureTuple ((targetPrice - curr) / curr)) else none

/-- The forward multiple exactly as §4 Stage F of the spec words it:
`multiple(t_years) = (1 + upside)^t_years`, with the growth rate capped
at 0.50 per year for the five-year horizon before exponentiation. -/
noncomputable def specForwardMultiple (upside : ℚ) (t : ℝ) : ℝ :=
  (1 + (if t = 5 then ((min upside 0.5 : ℚ) : ℝ) else (upside : ℝ))) ^ t

/-- Lines 43-44: the state of the caller's `stock_history` frame after the
call — `run_quant_analysis` assigns the two SMA columns on the caller's
dataframe in place (and `history` in the returned dictionary is that same
object). -/
def stockFrameAfter (data : InputData) : Frame :=
  { data.stockHistory with
    sma50 := some (rollingMean 50 data.stockHistory.close)
    sma200 := some (rollingMean 200 data.stockHistory.close) }

/-- The `metrics` sub-dictionary (lines 120-126).  `beta` is
`round(beta, 2)` with `none` for NaN; `volatility` and `expectedReturn`
carry the raw values that lines 122-123 format as percent strings
(`volatility` is `none` when NaN); `signal` / `signalDesc` are the trend
tag and its description. -/
structure Metrics where
  beta : Option ℚ
  volatility : Option ℝ
  expectedReturn : Option ℚ
  signal : String
  signalDesc : String

/-- The `valuation` sub-dictionary (lines 127-132). -/
structure Valuation where
  currentPrice : ℚ
  targetPrice : ℚ
  upside : ℚ
  verdict : String
deriving DecidableEq

/-- The `time_machine` sub-dictionary (lines 134-147): the four backward
multiples, and the forward side (all four entries are `None` together, or
all four numbers together, so the forward side is one optional tuple
(1 month, 6 months, 1 year, 5 years)). -/
structure TimeMachine where
  past1mo : Option ℚ
  past6mo : Option ℚ
  past1yr : Option ℚ
  past5yr : Option ℚ
  future : Option (ℝ × ℝ × ℝ × ℝ)

/-- The `fundamentals` sub-dictionary (lines 149-152).  `none` is the
"N/A" marker; `some v` is the displayed number (`$vB` for free cash
flow after division by 1e9 and 2-digit formatting, `round(v, 2)` for
debt/equity). -/
structure Fundamentals where
  freeCashFlow : Option ℚ
  debtEquity : Option ℚ
deriving DecidableEq

/-- The dictionary returned by `run_quant_analysis` (lines 119-153).
`history` is the (mutated) security frame the code returns under the
`"history"` key — the same object as the caller's `stock_history`. -/
structure AnalysisResult where
  metrics : Metrics
  valuation : Valuation
  timeMachine : TimeMachine
  history : Frame
  fundamentals : Fundamentals

/-- The body of `run_quant_analysis` once `Close.iloc[-1]` has succeeded,
with `curr` the last close of the security series.  Mirrors lines 15-153
of `src/analysis.py` stage by stage. -/
noncomputable def buildResult (data : InputData) (curr : ℚ) : AnalysisResult :=
  let returns := returnsOf data
  let beta := betaRaw returns
  let volatility : Option ℝ :=
    if returns = [] then some 0.2 else volatilityOf (returns.map Prod.fst)
  let expectedReturn := beta.map fun b => 0.045 + b * (0.10 - 0.045)
  let closes := data.stockHistory.close
  let td := trendOf closes curr
  let tv := valuationOf data.info.targetMeanPrice curr
  { metrics :=
      { beta := beta.map (pyRound 2)
        volatility := volatility
        expectedReturn := expectedReturn
        signal := td.1
        signalDesc := td.2 }
    valuation :=
      { currentPrice := curr
        targetPrice := tv.1
        upside := tv.2
        verdict := verdictOf td.1 tv.2 }
    timeMachine :=
      { past1mo := getPastValue closes curr 21
        past6mo := getPastValue closes curr 126
        past1yr := getPastValue closes curr 252
        past5yr := getPastValue closes curr 1260
        future := futMultiples tv.1 curr }
    history := stockFrameAfter data
    fundamentals :=
      { freeCashFlow :=
          match data.info.freeCashflow with
          | some v => if v ≠ 0 then some (pyRound 2 (v / 10 ^ 9)) else none
          | none => none
        debtEquity :=
          match data.info.debtToEquity with
          | some v => if v ≠ 0 then some (pyRound 2 v) else none
          | none => none } }

/-- `run_quant_analysis` (src/analysis.py lines 4-153).  The call reads
`stock_df['Close'].iloc[-1]` on every path through the trend block, so an
empty security series raises (modelled `none`); otherwise the structured
result is produced. -/
noncomputable def run_quant_analysis (data : InputData) : Option AnalysisResult :=
  match data.stockHistory.close.getLast? with
  | none => none
  | some curr => some (buildResult data curr)

/-- Modelled from the spec: §4 Stage E, the position-sizing allocation
hint, is present in no file under src/ (the spec consolidates revisions of
the routine of which the sizing stage is not among the surviving files);
the table is taken verbatim from the spec — strict `<` comparisons on the
annualized volatility, first match wins. -/
def allocationOf (vol : ℚ) : String :=
  if vol < 0.20 then "High (5-7%)"
  else if vol < 0.40 then "Medium (3-5%)"
  else if vol < 0.60 then "Low (1-2%)"
  else "Speculative (<1%)"

/-! ## Helper lemmas -/

lemma exists_getLast?_of_ne_nil {l : List ℚ} (h : l ≠ []) : ∃ c, l.getLast? = some c := by
  cases hl : l.getLast? with
  | some c => exact ⟨c, rfl⟩
  | none =>
    cases l with
    | nil => exact absurd rfl h
    | cons a as => simp [List.getLast?_eq_getLast] at hl

lemma run_eq_some (data : InputData) {c : ℚ}
    (hc : data.stockHistory.close.getLast? = some c) :
    run_quant_analysis data = some (buildResult data c) := by
  unfold run_quant_analysis
  rw [hc]

lemma buildResult_beta (data : InputData) (c : ℚ) :
    (buildResult data c).metrics.beta = (betaRaw (returnsOf data)).map (pyRound 2) := rfl

lemma buildResult_signal (data : InputData) (c : ℚ) :
    ((buildResult data c).metrics.signal, (buildResult data c).metrics.signalDesc) =
      trendOf data.stockHistory.close c := rfl

lemma buildResult_valuation (data : InputData) (c : ℚ) :
    (buildResult data c).valuation.currentPrice = c ∧
    (buildResult data c).valuation.targetPrice =
      (valuationOf data.info.targetMeanPrice c).1 ∧
    (buildResult data c).valuation.upside =
      (valuationOf data.info.targetMeanPrice c).2 := ⟨rfl, rfl, rfl⟩

lemma buildResult_future (data : InputData) (c : ℚ) :
    (buildResult data c).timeMachine.future =
      futMultiples (valuationOf data.info.targetMeanPrice c).1 c := rfl

lemma buildResult_history (data : InputData) (c : ℚ) :
    (buildResult data c).history = stockFrameAfter data := rfl

lemma buildResult_fundamentals (data : InputData) (c : ℚ) :
    (data.info.freeCashflow = none → (buildResult data c).fundamentals.freeCashFlow = none) ∧
    (data.info.debtToEquity = none → (buildResult data c).fundamentals.debtEquity = none) := by
  constructor <;> intro h <;> simp only [buildResult, h]

/-! ## Concrete inputs used by counterexamples and witnesses -/

/-- A rising stock against a constant-price (zero-variance) benchmark. -/
def exDegenerate : InputData :=
  { stockHistory := { dates := [0, 1, 2], close := [100, 110, 121] }
    marketHistory := { dates := [0, 1, 2], close := [50, 50, 50] }
    info := {} }

/-- A short flat series with no analyst target and no fundamentals. -/
def exNoTarget : InputData :=
  { stockHistory := { dates := [0, 1, 2], close := [100, 100, 100] }
    marketHistory := { dates := [0, 1, 2], close := [100, 100, 100] }
    info := {} }

/-- A two-day input used to exhibit the in-place mutation of the frame. -/
def exTwoDay : InputData :=
  { stockHistory := { dates := [0, 1], close := [100, 101] }
    marketHistory := { dates := [0, 1], close := [50, 51] }
    info := {} }

/-- A security series of exactly 50 observations. -/
def exFifty : InputData :=
  { stockHistory := { dates := List.range 50, close := List.replicate 50 100 }
    marketHistory := { dates := [0], close := [100] }
    info := {} }

/-! ## Claims -/

/-- C4: the verdict is the decision table of lines 84-94 evaluated in
priority order with first match winning: BULLISH with positive upside
gives LONG (BUY); otherwise BEARISH gives SHORT (SELL) regardless of
upside (in particular at upside = +0.30); otherwise WEAKENING gives
EXIT / CAUTION; otherwise RECOVERY gives WATCH FOR ENTRY; otherwise
HOLD. -/
theorem C4_verdict_table (t : String) (u : ℚ) :
    (t = "BULLISH" → 0 < u → verdictOf t u = "LONG (BUY)") ∧
    (t = "BEARISH" → verdictOf t u = "SHORT (SELL)") ∧
    (t = "WEAKENING" → verdictOf t u = "EXIT / CAUTION") ∧
    (t = "RECOVERY" → verdictOf t u = "WATCH FOR ENTRY") ∧
    (t = "BULLISH" → u ≤ 0 → verdictOf t u = "HOLD") ∧
    (t ≠ "BULLISH" → t ≠ "BEARISH" → t ≠ "WEAKENING" → t ≠ "RECOVERY" →
      verdictOf t u = "HOLD") ∧
    verdictOf "BEARISH" (3/10) = "SHORT (SELL)" := by
  unfold verdictOf
  refine ⟨fun h hu => ?_, fun h => ?_, fun h => ?_, fun h => ?_, fun h hu => ?_,
    fun h1 h2 h3 h4 => ?_, ?_⟩
  · subst h; rw [if_pos ⟨rfl, hu⟩]
  · subst h
    rw [if_neg (fun hc => absurd hc.1 (by decide)), if_pos rfl]
  · subst h
    rw [if_neg (fun hc => absurd hc.1 (by decide)), if_neg (by decide), if_pos rfl]
  · subst h
    rw [if_neg (fun hc => absurd hc.1 (by decide)), if_neg (by decide),
      if_neg (by decide), if_pos rfl]
  · subst h
    rw [if_neg (fun hc => absurd hc.2 (not_lt.mpr hu)), if_neg (by decide),
      if_neg (by decide), if_neg (by decide)]
  · rw [if_neg (fun hc => h1 hc.1), if_neg h2, if_neg h3, if_neg h4]
  · rw [if_neg (fun hc => absurd hc.1 (by decide)), if_pos rfl]

/-- C4 witness: trend BEARISH with upside +0.30 still yields SHORT (SELL). -/
theorem C4_verdict_table_witness : verdictOf "BEARISH" (3/10) = "SHORT (SELL)" :=
  (C4_verdict_table "BEARISH" (3/10)).2.1 rfl

/-- C5: whenever the comparison logic runs (more than 50 observations),
the trend tag is the four-way strict-inequality classification of lines
55-69 on the latest price, the 50-day average and the (possibly
substituted) 200-day average, and any tie — sma50 = sma200 or
price = sma50 — falls through to NEUTRAL. -/
theorem C5_trend_classification (closes : List ℚ) (curr : ℚ) (hlen : 50 < closes.length) :
    (sma200Sub closes < smaLast 50 closes ∧ smaLast 50 closes < curr →
      trendOf closes curr = ("BULLISH", "Strong Uptrend (Price > Green > Red)")) ∧
    (sma200Sub closes < smaLast 50 closes ∧ curr < smaLast 50 closes →
      trendOf closes curr = ("WEAKENING", "Caution: Price dropped below Green")) ∧
    (smaLast 50 closes < sma200Sub closes ∧ curr < smaLast 50 closes →
      trendOf closes curr = ("BEARISH", "Downtrend (Price < Green < Red)")) ∧
    (smaLast 50 closes < sma200Sub closes ∧ smaLast 50 closes < curr →
      trendOf closes curr = ("RECOVERY", "Watch: Price reclaimed Green line")) ∧
    (smaLast 50 closes = sma200Sub closes ∨ curr = smaLast 50 closes →
      trendOf closes curr = ("NEUTRAL", "Consolidating")) := by
  unfold trendOf
  rw [if_pos hlen]
  unfold trendCompare
  refine ⟨fun h => ?_, fun h => ?_, fun h => ?_, fun h => ?_, fun h => ?_⟩
  · rw [if_pos h]
  · rw [if_neg (fun hc => absurd hc.2 (lt_asymm h.2)), if_pos h]
  · rw [if_neg (fun hc => absurd hc.1 (lt_asymm h.1)),
      if_neg (fun hc => absurd hc.1 (lt_asymm h.1)), if_pos h]
  · rw [if_neg (fun hc => absurd hc.1 (lt_asymm h.1)),
      if_neg (fun hc => absurd hc.1 (lt_asymm h.1)),
      if_neg (fun hc => absurd hc.2 (lt_asymm h.2)), if_pos h]
  · rcases h with h | h
    · rw [if_neg (fun hc => lt_irrefl _ (h ▸ hc.1)),
        if_neg (fun hc => lt_irrefl _ (h ▸ hc.1)),
        if_neg (fun hc => lt_irrefl _ (h ▸ hc.1)),
        if_neg (fun hc => lt_irrefl _ (h ▸ hc.1))]
    · rw [if_neg (fun hc => lt_irrefl _ (h ▸ hc.2)),
        if_neg (fun hc => lt_irrefl _ (h ▸ hc.2)),
        if_neg (fun hc => lt_irrefl _ (h ▸ hc.2)),
        if_neg (fun hc => lt_irrefl _ (h ▸ hc.2))]

set_option maxRecDepth 100000 in
/-- C5 witness: a 51-observation series whose fast and slow averages tie
exactly is classified NEUTRAL. -/
theorem C5_trend_classification_witness :
    trendOf (List.replicate 51 1) 7 = ("NEUTRAL", "Consolidating") :=
  (C5_trend_classification (List.replicate 51 1) 7 (by decide)).2.2.2.2
    (Or.inl (by with_unfolding_all rfl))

/-- C9: the position-sizing allocation hint is keyed purely on annualized
volatility with strict bucket boundaries — below 0.20 High (5-7%), below
0.40 Medium (3-5%), below 0.60 Low (1-2%), otherwise Speculative; a
volatility exactly at 0.20, 0.40 or 0.60 maps to the lower bucket. -/
theorem C9_position_sizing (v : ℚ) :
    (v < 0.20 → allocationOf v = "High (5-7%)") ∧
    (0.20 ≤ v → v < 0.40 → allocationOf v = "Medium (3-5%)") ∧
    (0.40 ≤ v → v < 0.60 → allocationOf v = "Low (1-2%)") ∧
    (0.60 ≤ v → allocationOf v = "Speculative (<1%)") ∧
    allocationOf 0.20 = "Medium (3-5%)" ∧
    allocationOf 0.40 = "Low (1-2%)" ∧
    allocationOf 0.60 = "Speculative (<1%)" := by
  unfold allocationOf
  refine ⟨fun h => ?_, fun h1 h2 => ?_, fun h1 h2 => ?_, fun h1 => ?_, ?_, ?_, ?_⟩
  · rw [if_pos h]
  · rw [if_neg (not_lt.mpr h1), if_pos h2]
  · rw [if_neg (not_lt.mpr (le_trans (by norm_num) h1)), if_neg (not_lt.mpr h1), if_pos h2]
  · rw [if_neg (not_lt.mpr (le_trans (by norm_num) h1)),
      if_neg (not_lt.mpr (le_trans (by norm_num) h1)), if_neg (not_lt.mpr h1)]
  · norm_num
  · norm_num
  · norm_num

/-- C9 witness: a volatility of 0.10 maps to the High bucket. -/
theorem C9_position_sizing_witness : allocationOf (1/10) = "High (5-7%)" :=
  (C9_position_sizing (1/10)).1 (by norm_num)

/-- C7: when a (truthy) analyst target exists, the four forward
time-machine multiples equal the spec formula (1 + upside)^t for
t = 1/12, 1/2, 1, 5 years, with the growth rate capped at 0.50 per year
for the 5-year horizon only; with upside 1.0 the 1-year multiple is 2.0,
and with upside 2.0 the 5-year multiple is 1.5^5 = 7.59375. -/
theorem C7_time_machine :
    (∀ tp c : ℚ, tp ≠ 0 →
      futMultiples tp c =
        some (specForwardMultiple ((tp - c) / c) (1/12),
              specForwardMultiple ((tp - c) / c) (1/2),
              specForwardMultiple ((tp - c) / c) 1,
              specForwardMultiple ((tp - c) / c) 5)) ∧
    (futureTuple 1).2.2.1 = 2 ∧
    (futureTuple 2).2.2.2 = 7.59375 := by
  refine ⟨fun tp c h => ?_, ?_, ?_⟩
  · unfold futMultiples
    rw [if_pos h]
    unfold futureTuple specForwardMultiple
    rw [if_neg (by norm_num : ¬ (1:ℝ)/12 = 5), if_neg (by norm_num : ¬ (1:ℝ)/2 = 5),
      if_neg (by norm_num : ¬ (1:ℝ) = 5), if_pos rfl]
  · show (1 + ((1:ℚ) : ℝ)) ^ (1:ℝ) = 2
    rw [Real.rpow_one]; norm_num
  · show (1 + ((min (2:ℚ) 0.5 : ℚ) : ℝ)) ^ (5:ℝ) = 7.59375
    rw [show min (2:ℚ) 0.5 = 0.5 by norm_num [min_eq_right],
      show (5:ℝ) = ((5:ℕ) : ℝ) by norm_num, Real.rpow_natCast]
    norm_num

/-- C7 witness: at a target of 200 on a price of 100 (upside 1.0) the
forward multiples are the spec formula at upside 1. -/
theorem C7_time_machine_witness :
    futMultiples 200 100 =
      some (specForwardMultiple ((200 - 100) / 100) (1/12),
            specForwardMultiple ((200 - 100) / 100) (1/2),
            specForwardMultiple ((200 - 100) / 100) 1,
            specForwardMultiple ((200 - 100) / 100) 5) :=
  C7_time_machine.1 200 100 (by norm_num)

set_option maxRecDepth 100000 in
/-- C1 counterexample: on a rising stock against a constant-price
benchmark the joined return series is non-empty with zero benchmark
variance, yet the beta of the result is NaN (`none`) — not the claimed
1.0 fallback: lines 26-28 divide the zero covariance by the zero variance
(numpy 0.0/0.0 = NaN) and the `beta = 1.0` branch of line 33 is reached
only when the return series is empty. -/
theorem C1_counterexample :
    returnsOf exDegenerate ≠ [] ∧
    sampleVar ((returnsOf exDegenerate).map Prod.snd) = some 0 ∧
    (run_quant_analysis exDegenerate).map (fun r => r.metrics.beta) = some none ∧
    (run_quant_analysis exDegenerate).map (fun r => r.metrics.beta) ≠ some (some 1) :=
  ⟨of_decide_eq_true (by with_unfolding_all rfl), by with_unfolding_all rfl,
    by with_unfolding_all rfl, of_decide_eq_true (by with_unfolding_all rfl)⟩

/-- C1 amended: for every input with a non-empty security series whose
inner-joined return series is non-empty with zero benchmark variance, the
call completes (no crash) but the beta field is NaN (`none`), not 1.0;
the 1.0 fallback applies exactly when the joined return series is
empty. -/
theorem C1_amended (data : InputData) (hne : data.stockHistory.close ≠ []) :
    (returnsOf data ≠ [] → sampleVar ((returnsOf data).map Prod.snd) = some 0 →
      ∃ r, run_quant_analysis data = some r ∧ r.metrics.beta = none) ∧
    (returnsOf data = [] →
      ∃ r, run_quant_analysis data = some r ∧ r.metrics.beta = some 1) := by
  obtain ⟨c, hc⟩ := exists_getLast?_of_ne_nil hne
  have hrun := run_eq_some data hc
  constructor
  · intro hret hvar
    refine ⟨buildResult data c, hrun, ?_⟩
    rw [buildResult_beta]
    have hlen2 : ¬ ((returnsOf data).map Prod.snd).length ≤ 1 := by
      intro hl
      rw [sampleVar, if_pos hl] at hvar
      exact Option.noConfusion hvar
    have hlen : ¬ (returnsOf data).length ≤ 1 := by
      simpa using hlen2
    have hcv : sampleCov (returnsOf data) =
        some (((returnsOf data).map fun p =>
          (p.1 - mean ((returnsOf data).map Prod.fst)) *
            (p.2 - mean ((returnsOf data).map Prod.snd))).sum /
          (((returnsOf data).length : ℚ) - 1)) := by
      rw [sampleCov, if_neg hlen]
    have hbeta : betaRaw (returnsOf data) = none := by
      unfold betaRaw betaOf
      rw [if_neg hret, hcv, hvar]
      simp
    rw [hbeta]
    rfl
  · intro hret
    refine ⟨buildResult data c, hrun, ?_⟩
    rw [buildResult_beta]
    unfold betaRaw
    rw [if_pos hret]
    have h1 : pyRound 2 1 = 1 := by with_unfolding_all rfl
    simp [h1]

set_option maxRecDepth 100000 in
/-- C1 witness: the degenerate-benchmark input indeed yields a completed
call with a NaN beta. -/
theorem C1_amended_witness :
    ∃ r, run_quant_analysis exDegenerate = some r ∧ r.metrics.beta = none :=
  (C1_amended exDegenerate (of_decide_eq_true (by with_unfolding_all rfl))).1
    (of_decide_eq_true (by with_unfolding_all rfl)) (by with_unfolding_all rfl)

set_option maxRecDepth 100000 in
/-- C2: with no analyst mean target price in the snapshot, the four
forward time-machine multiples are NOT reported as unavailable — they are
all 1.0.  Line 81 reassigns `target_price = curr_price` (positive), so
the line-105 check `if target_price:` is always true and the
`fut_* = None` branch of line 116 is dead code; the growth rate is then
`(curr - curr)/curr = 0` and every forward multiple is `1.0**t = 1.0`. -/
theorem C2_bug_forward_not_unavailable :
    exNoTarget.info.targetMeanPrice = none ∧
    (run_quant_analysis exNoTarget).map (fun r => r.timeMachine.future) =
      some (some (1, 1, 1, 1)) := by
  refine ⟨rfl, ?_⟩
  rw [run_eq_some exNoTarget
    (show exNoTarget.stockHistory.close.getLast? = some 100 by with_unfolding_all rfl)]
  show some (futMultiples (valuationOf none 100).1 100) = some (some (1, 1, 1, 1))
  show some (futMultiples 100 100) = some (some (1, 1, 1, 1))
  unfold futMultiples
  rw [if_pos (by norm_num : (100:ℚ) ≠ 0)]
  unfold futureTuple
  norm_num [Real.one_rpow]

set_option maxRecDepth 100000 in
/-- C3 counterexample: `run_quant_analysis` is not pure with respect to
its inputs — lines 43-44 assign the SMA_50 and SMA_200 columns on the
caller's security dataframe in place, and the returned `"history"` entry
is that same (now mutated) object. -/
theorem C3_counterexample :
    stockFrameAfter exTwoDay ≠ exTwoDay.stockHistory ∧
    (run_quant_analysis exTwoDay).map (fun r => r.history) =
      some (stockFrameAfter exTwoDay) :=
  ⟨of_decide_eq_true (by with_unfolding_all rfl), by with_unfolding_all rfl⟩

/-- C3 amended: the call mutates the security frame by adding the SMA_50
and SMA_200 columns (the dates and the Close values are unchanged, and
the benchmark frame is never written), and the result's `history` is
exactly that mutated frame, shared with the caller's input. -/
theorem C3_amended (data : InputData) (hne : data.stockHistory.close ≠ []) :
    (stockFrameAfter data).dates = data.stockHistory.dates ∧
    (stockFrameAfter data).close = data.stockHistory.close ∧
    (stockFrameAfter data).sma50 = some (rollingMean 50 data.stockHistory.close) ∧
    (stockFrameAfter data).sma200 = some (rollingMean 200 data.stockHistory.close) ∧
    ∃ r, run_quant_analysis data = some r ∧ r.history = stockFrameAfter data := by
  obtain ⟨c, hc⟩ := exists_getLast?_of_ne_nil hne
  exact ⟨rfl, rfl, rfl, rfl, buildResult data c, run_eq_some data hc, rfl⟩

set_option maxRecDepth 100000 in
/-- C3 witness: the two-day input exhibits the preserved Close column,
the added SMA columns, and the shared history frame. -/
theorem C3_amended_witness :
    (stockFrameAfter exTwoDay).dates = exTwoDay.stockHistory.dates ∧
    (stockFrameAfter exTwoDay).close = exTwoDay.stockHistory.close ∧
    (stockFrameAfter exTwoDay).sma50 =
      some (rollingMean 50 exTwoDay.stockHistory.close) ∧
    (stockFrameAfter exTwoDay).sma200 =
      some (rollingMean 200 exTwoDay.stockHistory.close) ∧
    ∃ r, run_quant_analysis exTwoDay = some r ∧ r.history = stockFrameAfter exTwoDay :=
  C3_amended exTwoDay (of_decide_eq_true (by with_unfolding_all rfl))

set_option maxRecDepth 100000 in
/-- C6: at exactly 50 observations the degraded insufficient-history
result is produced, although the claim (and the code's own comment,
"we check if we have enough data (at least 50 days)") says the comparison
logic applies from 50 observations on: line 48 tests `len(stock_df) > 50`,
so a series of exactly 50 closes is classified NEUTRAL with description
"Insufficient History". -/
theorem C6_bug_boundary_at_fifty :
    exFifty.stockHistory.close.length = 50 ∧
    (run_quant_analysis exFifty).map
        (fun r => (r.metrics.signal, r.metrics.signalDesc)) =
      some ("NEUTRAL", "Insufficient History") := by
  constructor <;> with_unfolding_all rfl

/-- C8: for every structurally valid input (non-empty security series),
the call completes whatever fundamental fields are absent, and each
fundamental-derived figure independently degrades: a missing free cash
flow or debt/equity renders as "N/A" (`none`), and a missing analyst
target falls back to target = current price with upside 0. -/
theorem C8_missing_fundamentals (data : InputData)
    (hne : data.stockHistory.close ≠ []) :
    ∃ r, run_quant_analysis data = some r ∧
      (data.info.freeCashflow = none → r.fundamentals.freeCashFlow = none) ∧
      (data.info.debtToEquity = none → r.fundamentals.debtEquity = none) ∧
      (data.info.targetMeanPrice = none →
        r.valuation.targetPrice = r.valuation.currentPrice ∧ r.valuation.upside = 0) := by
  obtain ⟨c, hc⟩ := exists_getLast?_of_ne_nil hne
  refine ⟨buildResult data c, run_eq_some data hc,
    (buildResult_fundamentals data c).1, (buildResult_fundamentals data c).2,
    fun h => ?_⟩
  obtain ⟨h1, h2, h3⟩ := buildResult_valuation data c
  rw [h1, h2, h3, h]
  exact ⟨rfl, rfl⟩

set_option maxRecDepth 100000 in
/-- C8 witness: the all-fields-absent snapshot completes with every
figure degraded. -/
theorem C8_missing_fundamentals_witness :
    ∃ r, run_quant_analysis exNoTarget = some r ∧
      (exNoTarget.info.freeCashflow = none → r.fundamentals.freeCashFlow = none) ∧
      (exNoTarget.info.debtToEquity = none → r.fundamentals.debtEquity = none) ∧
      (exNoTarget.info.targetMeanPrice = none →
        r.valuation.targetPrice = r.valuation.currentPrice ∧ r.valuation.upside = 0) :=
  C8_missing_fundamentals exNoTarget (of_decide_eq_true (by with_unfolding_all rfl))

/-- C10: an analyst target present but equal to 0 (the only falsy number)
is treated exactly like an absent target — the whole analysis result is
identical to the one for a missing target, and the result's target price
equals the current price with upside 0 (the zero target never enters the
upside computation). -/
theorem C10_zero_target (stock market : Frame) (fcf dte : Option ℚ) :
    run_quant_analysis ⟨stock, market, ⟨some 0, fcf, dte⟩⟩ =
      run_quant_analysis ⟨stock, market, ⟨none, fcf, dte⟩⟩ ∧
    (∀ c, stock.close.getLast? = some c →
      ∃ r, run_quant_analysis ⟨stock, market, ⟨some 0, fcf, dte⟩⟩ = some r ∧
        r.valuation.targetPrice = c ∧ r.valuation.upside = 0) := by
  have hb : ∀ c, buildResult ⟨stock, market, ⟨some 0, fcf, dte⟩⟩ c =
      buildResult ⟨stock, market, ⟨none, fcf, dte⟩⟩ c := by
    intro c
    unfold buildResult
    norm_num [valuationOf, returnsOf, stockFrameAfter]
  constructor
  · unfold run_quant_analysis
    cases hg : stock.close.getLast? with
    | none => rfl
    | some c => exact congrArg some (hb c)
  · intro c hgc
    refine ⟨buildResult ⟨stock, market, ⟨some 0, fcf, dte⟩⟩ c,
      run_eq_some _ hgc, ?_, ?_⟩
    · show (valuationOf (some 0) c).1 = c
      norm_num [valuationOf]
    · show (valuationOf (some 0) c).2 = 0
      norm_num [valuationOf]

set_option maxRecDepth 100000 in
/-- C10 witness: a zero analyst target on the two-day input yields target
price = current price = 101 and upside 0. -/
theorem C10_zero_target_witness :
    ∃ r, run_quant_analysis
        ⟨exTwoDay.stockHistory, exTwoDay.marketHistory, ⟨some 0, none, none⟩⟩ = some r ∧
      r.valuation.targetPrice = 101 ∧ r.valuation.upside = 0 :=
  (C10_zero_target exTwoDay.stockHistory exTwoDay.marketHistory none none).2 101
    (by with_unfolding_all rfl)

end QuantAnalysis
